/-
Verification of the particle-field background animators of
a10citylabs/a10citylabs.github.io.

The repository ships three near-duplicate WebGL background effects:
  * the baseline polkadot variant (sparse dots that pop and fade),
  * the festive polkadot variant (denser, pre-populated, twinkling),
  * the triangle variant (rotating triangles, x-position avoiding the
    center of the screen).

Each is a class `PolkadotBackground` owning a list of particles
(`this.dots`) and a last-spawn timestamp; a per-frame `updateDots`
retires expired particles and stochastically spawns new ones up to a
cap, and `calculateAlpha` computes a sinusoidal fade envelope.

Embedding conventions:
  * JavaScript numbers used by the state machine (times, lifetimes,
    coordinates, sizes) are embedded as rationals `ℚ`; the decimal
    literals of the source (0.667, 0.85, ...) become the corresponding
    exact rationals.
  * `Math.random()` is embedded as a stream `rng : ℕ → ℚ` of values,
    consumed left to right in exactly the order the source calls
    `Math.random()`; validity (each value in `[0,1)`) is an explicit
    hypothesis where needed.
  * `performance.now()` during a frame is the frame's `now` argument.
  * `calculateAlpha` uses `Math.sin`; it is embedded over `ℝ` with
    `Real.sin`.
  * DOM and browser resources touched by `init`/`destroy` (canvas
    attachment, resize listeners, the scheduled animation frame,
    console warnings) are embedded as an explicit resource-counting
    state, since the DOM itself is outside the shallow embedding.
-/
import Mathlib

set_option autoImplicit false

abbrev Rng := ℕ → ℚ

/-- A random stream is valid when every produced value lies in `[0,1)`,
the range of `Math.random()`. -/
def ValidRng (rng : Rng) : Prop := ∀ n, 0 ≤ rng n ∧ rng n < 1

/-! ### Baseline variant (`polkadots` module, sparse dots)

Source: the unnamed polkadot module (CONFIG with `maxDots: 2000`,
`spawnInterval: 600`, lifetimes 2500–5000, sizes 20–500, five palette
colors; single spawn attempt per interval with a 70% gate; no
pre-population). -/

namespace Baseline

def CONFIG_maxDots : ℕ := 2000
def CONFIG_spawnInterval : ℚ := 600
def CONFIG_minLifetime : ℚ := 2500
def CONFIG_maxLifetime : ℚ := 5000
def CONFIG_minSize : ℚ := 20
def CONFIG_maxSize : ℚ := 500

def CONFIG_colors : List (ℚ × ℚ × ℚ × ℚ) :=
  [ (0.75, 1.0, 0.0, 0.6),
    (0.75, 1.0, 0.0, 0.4),
    (1.0, 1.0, 1.0, 0.25),
    (0.0, 0.46, 0.85, 0.4),
    (0.63, 0.88, 0.0, 0.5) ]

/-- One dot of the baseline variant: `{x, y, size, color, birthTime,
lifetime}` as pushed by `spawnDot`. -/
structure Dot where
  x : ℚ
  y : ℚ
  size : ℚ
  color : ℚ × ℚ × ℚ × ℚ
  birthTime : ℚ
  lifetime : ℚ
deriving Repr, DecidableEq

/-- The mutable state of the animator relevant to the update loop:
`this.dots` and `this.lastSpawnTime`. -/
structure State where
  dots : List Dot
  lastSpawnTime : ℚ
deriving Repr, DecidableEq

/-- `spawnDot()`: no-op when the collection is full, otherwise sample
color, lifetime, x, y, size (five `Math.random()` calls, in source
order) and push one dot born at the current time. Returns the new
state and the next unread random index. -/
def spawnDot (rng : Rng) (k : ℕ) (now : ℚ) (s : State) : State × ℕ :=
  if CONFIG_maxDots ≤ s.dots.length then (s, k)
  else
    let color := CONFIG_colors.getD (⌊rng k * (CONFIG_colors.length : ℚ)⌋).toNat
      (0, 0, 0, 0)
    let lifetime := CONFIG_minLifetime + rng (k+1) * (CONFIG_maxLifetime - CONFIG_minLifetime)
    let dot : Dot :=
      { x := rng (k+2) * 2 - 1
        y := rng (k+3) * 2 - 1
        size := CONFIG_minSize + rng (k+4) * (CONFIG_maxSize - CONFIG_minSize)
        color := color
        birthTime := now
        lifetime := lifetime }
    ({ s with dots := s.dots ++ [dot] }, k + 5)

/-- `updateDots(currentTime)`: filter out dots whose age reached their
lifetime; then, when the spawn interval elapsed, roll the 70% gate
(one `Math.random()`), possibly spawn, and reset `lastSpawnTime`
unconditionally. -/
def updateDots (rng : Rng) (k : ℕ) (now : ℚ) (s : State) : State × ℕ :=
  let filtered := s.dots.filter (fun dot => decide (now - dot.birthTime < dot.lifetime))
  let s1 : State := { s with dots := filtered }
  if CONFIG_spawnInterval < now - s.lastSpawnTime then
    let sk2 := if rng k < 0.7 then spawnDot rng (k+1) now s1 else (s1, k+1)
    ({ sk2.1 with lastSpawnTime := now }, sk2.2)
  else (s1, k)

/-- `calculateAlpha(dot, currentTime)`: `Math.sin(progress * Math.PI)`
where `progress = age / lifetime`. -/
noncomputable def calculateAlpha (dot : Dot) (currentTime : ℚ) : ℝ :=
  let age : ℝ := (currentTime : ℝ) - (dot.birthTime : ℝ)
  let progress : ℝ := age / (dot.lifetime : ℝ)
  Real.sin (progress * Real.pi)

end Baseline

/-! ### Festive variant (`polkadots.js`, bright glowing dots)

Source: `src/polkadots.js`, first module (CONFIG with `maxDots: 9`,
`spawnInterval: 500`, lifetimes 3000–4000, sizes 50–100, ten palette
colors; pre-population to 70% of capacity; up to three spawn attempts
per interval, each behind an 85% gate; twinkle factor in the alpha). -/

namespace Festive

def CONFIG_maxDots : ℕ := 9
def CONFIG_spawnInterval : ℚ := 500
def CONFIG_minLifetime : ℚ := 3000
def CONFIG_maxLifetime : ℚ := 4000
def CONFIG_minSize : ℚ := 50
def CONFIG_maxSize : ℚ := 100

def CONFIG_colors : List (ℚ × ℚ × ℚ × ℚ) :=
  [ (0.75, 1.0, 0.0, 0.85),
    (1.0, 0.84, 0.0, 0.8),
    (1.0, 0.4, 0.7, 0.75),
    (0.0, 1.0, 1.0, 0.75),
    (1.0, 0.5, 0.0, 0.8),
    (0.6, 0.4, 1.0, 0.75),
    (1.0, 1.0, 1.0, 0.7),
    (0.0, 0.8, 1.0, 0.75),
    (1.0, 0.2, 0.4, 0.75),
    (0.4, 1.0, 0.6, 0.75) ]

/-- One dot of the festive variant, as pushed by `spawnDot` and
`prePopulateDots`. -/
structure Dot where
  x : ℚ
  y : ℚ
  size : ℚ
  color : ℚ × ℚ × ℚ × ℚ
  birthTime : ℚ
  lifetime : ℚ
deriving Repr, DecidableEq

/-- `this.dots` and `this.lastSpawnTime` of the festive animator. -/
structure State where
  dots : List Dot
  lastSpawnTime : ℚ
deriving Repr, DecidableEq

/-- `spawnDot()`: no-op when the collection is full, otherwise sample
color, lifetime, x, y, size (five `Math.random()` calls, in source
order) and push one dot born at the current time. -/
def spawnDot (rng : Rng) (k : ℕ) (now : ℚ) (s : State) : State × ℕ :=
  if CONFIG_maxDots ≤ s.dots.length then (s, k)
  else
    let color := CONFIG_colors.getD (⌊rng k * (CONFIG_colors.length : ℚ)⌋).toNat
      (0, 0, 0, 0)
    let lifetime := CONFIG_minLifetime + rng (k+1) * (CONFIG_maxLifetime - CONFIG_minLifetime)
    let dot : Dot :=
      { x := rng (k+2) * 2 - 1
        y := rng (k+3) * 2 - 1
        size := CONFIG_minSize + rng (k+4) * (CONFIG_maxSize - CONFIG_minSize)
        color := color
        birthTime := now
        lifetime := lifetime }
    ({ s with dots := s.dots ++ [dot] }, k + 5)

/-- The body of `prePopulateDots`' `for` loop, iterated `n` times:
each iteration samples color, lifetime, birth offset, x, y, size (six
`Math.random()` calls, in source order) and pushes one dot back-dated
by `birthOffset = Math.random() * lifetime * 0.8`. -/
def prePopLoop (rng : Rng) (now : ℚ) : ℕ → List Dot × ℕ → List Dot × ℕ
  | 0, dk => dk
  | n + 1, (dots, k) =>
    let color := CONFIG_colors.getD (⌊rng k * (CONFIG_colors.length : ℚ)⌋).toNat
      (0, 0, 0, 0)
    let lifetime := CONFIG_minLifetime + rng (k+1) * (CONFIG_maxLifetime - CONFIG_minLifetime)
    let birthOffset := rng (k+2) * lifetime * 0.8
    let dot : Dot :=
      { x := rng (k+3) * 2 - 1
        y := rng (k+4) * 2 - 1
        size := CONFIG_minSize + rng (k+5) * (CONFIG_maxSize - CONFIG_minSize)
        color := color
        birthTime := now - birthOffset
        lifetime := lifetime }
    prePopLoop rng now n (dots ++ [dot], k + 6)

/-- `prePopulateDots()`: push `Math.floor(CONFIG.maxDots * 0.7)` dots
with staggered (back-dated) birth times. -/
def prePopulateDots (rng : Rng) (k : ℕ) (now : ℚ) (s : State) : State × ℕ :=
  let targetDots := (⌊(CONFIG_maxDots : ℚ) * 0.7⌋).toNat
  let dk := prePopLoop rng now targetDots (s.dots, k)
  ({ s with dots := dk.1 }, dk.2)

/-- The `for (let i = 0; i < dotsToSpawn; i++)` loop of `updateDots`,
iterated `n` times: each iteration rolls the 85% gate (one
`Math.random()`) and on success calls `spawnDot`. -/
def spawnLoop (rng : Rng) (now : ℚ) : ℕ → State × ℕ → State × ℕ
  | 0, sk => sk
  | n + 1, (s, k) =>
    let sk1 := if rng k < 0.85 then spawnDot rng (k+1) now s else (s, k+1)
    spawnLoop rng now n sk1

/-- `updateDots(currentTime)`: filter out expired dots; then, when the
spawn interval elapsed, attempt `Math.min(3, CONFIG.maxDots -
this.dots.length)` spawns and reset `lastSpawnTime` unconditionally. -/
def updateDots (rng : Rng) (k : ℕ) (now : ℚ) (s : State) : State × ℕ :=
  let filtered := s.dots.filter (fun dot => decide (now - dot.birthTime < dot.lifetime))
  let s1 : State := { s with dots := filtered }
  if CONFIG_spawnInterval < now - s.lastSpawnTime then
    let dotsToSpawn : ℤ := min 3 ((CONFIG_maxDots : ℤ) - (filtered.length : ℤ))
    let sk2 := spawnLoop rng now dotsToSpawn.toNat (s1, k)
    ({ sk2.1 with lastSpawnTime := now }, sk2.2)
  else (s1, k)

/-- `calculateAlpha(dot, currentTime)`: the sine fade envelope
multiplied by the twinkle factor `1 + Math.sin(age * 0.01) * 0.1`. -/
noncomputable def calculateAlpha (dot : Dot) (currentTime : ℚ) : ℝ :=
  let age : ℝ := (currentTime : ℝ) - (dot.birthTime : ℝ)
  let progress : ℝ := age / (dot.lifetime : ℝ)
  let baseAlpha := Real.sin (progress * Real.pi)
  let twinkle := 1 + Real.sin (age * 0.01) * 0.1
  baseAlpha * twinkle

end Festive

/-! ### Triangle variant (`polkadots.js`, rotating triangles)

Source: `src/polkadots.js`, second module (CONFIG with `maxDots: 10`,
`spawnInterval: 1000`, lifetimes 4000–6000, sizes 70–80, four palette
colors; x sampled by `getRandomX` to avoid the center of the screen;
per-dot rotation advanced each frame; pre-population; up to three
spawn attempts per interval behind an 85% gate; twinkle in the
alpha). -/

namespace Triangle

def CONFIG_maxDots : ℕ := 10
def CONFIG_spawnInterval : ℚ := 1000
def CONFIG_minLifetime : ℚ := 4000
def CONFIG_maxLifetime : ℚ := 6000
def CONFIG_minSize : ℚ := 70
def CONFIG_maxSize : ℚ := 80

def CONFIG_colors : List (ℚ × ℚ × ℚ × ℚ) :=
  [ (0.0, 0.34, 0.7, 0.75),
    (0.0, 0.46, 0.85, 0.75),
    (0.0, 0.5, 0.9, 0.7),
    (0.0, 0.4, 0.75, 0.75) ]

/-- One triangle of the triangle variant; unlike the dot variants it
also carries `rotation` and `rotationSpeed`. The initial rotation
`Math.random() * Math.PI * 2` is kept in the form `r * 2` of a raw
random `r`, in units of `Math.PI` (the state machine never compares
rotations, so the π factor is a unit choice). -/
structure Dot where
  x : ℚ
  y : ℚ
  size : ℚ
  color : ℚ × ℚ × ℚ × ℚ
  birthTime : ℚ
  lifetime : ℚ
  rotation : ℚ
  rotationSpeed : ℚ
deriving Repr, DecidableEq

/-- `this.dots` and `this.lastSpawnTime` of the triangle animator. -/
structure State where
  dots : List Dot
  lastSpawnTime : ℚ
deriving Repr, DecidableEq

/-- `getRandomX()`: flip a coin (one `Math.random()`); on heads sample
`-1 + Math.random() * 0.667` (the left band), otherwise
`0.333 + Math.random() * 0.667` (the right band). Two `Math.random()`
calls in either branch. -/
def getRandomX (rng : Rng) (k : ℕ) : ℚ × ℕ :=
  if rng k < 0.5 then (-1 + rng (k+1) * 0.667, k + 2)
  else (0.333 + rng (k+1) * 0.667, k + 2)

/-- `spawnDot()`: no-op when full, otherwise sample color, lifetime,
x (via `getRandomX`, two randoms), y, size, rotation, rotation speed
(eight `Math.random()` calls in source order) and push one triangle
born at the current time. -/
def spawnDot (rng : Rng) (k : ℕ) (now : ℚ) (s : State) : State × ℕ :=
  if CONFIG_maxDots ≤ s.dots.length then (s, k)
  else
    let color := CONFIG_colors.getD (⌊rng k * (CONFIG_colors.length : ℚ)⌋).toNat
      (0, 0, 0, 0)
    let lifetime := CONFIG_minLifetime + rng (k+1) * (CONFIG_maxLifetime - CONFIG_minLifetime)
    let xk := getRandomX rng (k+2)
    let dot : Dot :=
      { x := xk.1
        y := rng (k+4) * 2 - 1
        size := CONFIG_minSize + rng (k+5) * (CONFIG_maxSize - CONFIG_minSize)
        color := color
        birthTime := now
        lifetime := lifetime
        rotation := rng (k+6) * 2
        rotationSpeed := (rng (k+7) - 0.5) * 0.002 }
    ({ s with dots := s.dots ++ [dot] }, k + 8)

/-- The body of the triangle `prePopulateDots` loop, iterated `n`
times: color, lifetime, birth offset, x (via `getRandomX`, two
randoms), y, size, rotation, rotation speed — nine `Math.random()`
calls per dot, in source order. -/
def prePopLoop (rng : Rng) (now : ℚ) : ℕ → List Dot × ℕ → List Dot × ℕ
  | 0, dk => dk
  | n + 1, (dots, k) =>
    let color := CONFIG_colors.getD (⌊rng k * (CONFIG_colors.length : ℚ)⌋).toNat
      (0, 0, 0, 0)
    let lifetime := CONFIG_minLifetime + rng (k+1) * (CONFIG_maxLifetime - CONFIG_minLifetime)
    let birthOffset := rng (k+2) * lifetime * 0.8
    let xk := getRandomX rng (k+3)
    let dot : Dot :=
      { x := xk.1
        y := rng (k+5) * 2 - 1
        size := CONFIG_minSize + rng (k+6) * (CONFIG_maxSize - CONFIG_minSize)
        color := color
        birthTime := now - birthOffset
        lifetime := lifetime
        rotation := rng (k+7) * 2
        rotationSpeed := (rng (k+8) - 0.5) * 0.002 }
    prePopLoop rng now n (dots ++ [dot], k + 9)

/-- `prePopulateDots()`: push `Math.floor(CONFIG.maxDots * 0.7)`
triangles with back-dated birth times. -/
def prePopulateDots (rng : Rng) (k : ℕ) (now : ℚ) (s : State) : State × ℕ :=
  let targetDots := (⌊(CONFIG_maxDots : ℚ) * 0.7⌋).toNat
  let dk := prePopLoop rng now targetDots (s.dots, k)
  ({ s with dots := dk.1 }, dk.2)

/-- The spawn-attempt loop of the triangle `updateDots`, iterated `n`
times behind the 85% gate. -/
def spawnLoop (rng : Rng) (now : ℚ) : ℕ → State × ℕ → State × ℕ
  | 0, sk => sk
  | n + 1, (s, k) =>
    let sk1 := if rng k < 0.85 then spawnDot rng (k+1) now s else (s, k+1)
    spawnLoop rng now n sk1

/-- `updateDots(currentTime)`: the filter keeps each dot whose age is
below its lifetime and, for the survivors, advances `rotation` by
`rotationSpeed * 16` (the nominal frame time); then, when the spawn
interval elapsed, attempt up to three spawns and reset
`lastSpawnTime` unconditionally. -/
def updateDots (rng : Rng) (k : ℕ) (now : ℚ) (s : State) : State × ℕ :=
  let filtered := s.dots.filterMap (fun dot =>
    if now - dot.birthTime < dot.lifetime then
      some { dot with rotation := dot.rotation + dot.rotationSpeed * 16 }
    else none)
  let s1 : State := { s with dots := filtered }
  if CONFIG_spawnInterval < now - s.lastSpawnTime then
    let dotsToSpawn : ℤ := min 3 ((CONFIG_maxDots : ℤ) - (filtered.length : ℤ))
    let sk2 := spawnLoop rng now dotsToSpawn.toNat (s1, k)
    ({ sk2.1 with lastSpawnTime := now }, sk2.2)
  else (s1, k)

/-- `calculateAlpha(dot, currentTime)`: sine fade envelope times the
twinkle factor, identical to the festive variant. -/
noncomputable def calculateAlpha (dot : Dot) (currentTime : ℚ) : ℝ :=
  let age : ℝ := (currentTime : ℝ) - (dot.birthTime : ℝ)
  let progress : ℝ := age / (dot.lifetime : ℝ)
  let baseAlpha := Real.sin (progress * Real.pi)
  let twinkle := 1 + Real.sin (age * 0.01) * 0.1
  baseAlpha * twinkle

end Triangle

/-! ### Lifecycle: `init` / `destroy` and browser resources

`init` creates a canvas, inserts it before the page body's first
child, asks for a WebGL context, and — only when a context is
obtained — sets up WebGL, registers a viewport-resize listener,
pre-populates (festive/triangle) and starts the animation loop;
otherwise it logs a `console.warn` diagnostic and returns. `destroy`
cancels a scheduled animation frame and removes the canvas from its
parent. The browser-side effects are embedded as explicit resource
counters. -/

/-- The browser resources a `PolkadotBackground` instance touches:
whether its canvas is attached to the document, how many
viewport-resize listeners it has registered on `window`, whether an
animation-frame callback is scheduled, and how many `console.warn`
diagnostics it has emitted. -/
structure DomState where
  canvasAttached : Bool
  resizeListeners : ℕ
  animationScheduled : Bool
  warnCount : ℕ
deriving Repr, DecidableEq

/-- The browser state before the component is constructed. -/
def DomState.fresh : DomState :=
  { canvasAttached := false, resizeListeners := 0
    animationScheduled := false, warnCount := 0 }

namespace Festive

/-- The instance fields of the festive `PolkadotBackground` beyond the
particle state: whether `this.gl` is non-null, whether `setupWebGL`
ran, and `this.animationId` (null until `animate` runs). -/
structure Component where
  glOk : Bool
  webglSetup : Bool
  animationId : Option ℕ
  st : State
deriving Repr, DecidableEq

/-- `init()` of the festive variant: attach the canvas; if the WebGL
context is unavailable, warn and return (no setup, no listener, no
pre-population, no loop); otherwise set up WebGL, register the resize
listener, pre-populate the dots and start the animation loop. -/
def init (glAvailable : Bool) (rng : Rng) (k : ℕ) (now : ℚ) (dom : DomState) :
    Component × DomState × ℕ :=
  let dom1 : DomState := { dom with canvasAttached := true }
  if glAvailable then
    let dom2 : DomState := { dom1 with resizeListeners := dom1.resizeListeners + 1 }
    let stk := prePopulateDots rng k now { dots := [], lastSpawnTime := 0 }
    ({ glOk := true, webglSetup := true, animationId := some 1, st := stk.1 },
     { dom2 with animationScheduled := true }, stk.2)
  else
    ({ glOk := false, webglSetup := false, animationId := none,
       st := { dots := [], lastSpawnTime := 0 } },
     { dom1 with warnCount := dom1.warnCount + 1 }, k)

/-- `destroy()` of the festive variant: cancel the scheduled frame
when `this.animationId` is set, and detach the canvas when it has a
parent. Nothing else is released. -/
def destroy (c : Component) (dom : DomState) : Component × DomState :=
  let dom1 := if c.animationId.isSome then { dom with animationScheduled := false } else dom
  let dom2 := if dom1.canvasAttached then { dom1 with canvasAttached := false } else dom1
  (c, dom2)

end Festive

namespace Baseline

/-- The instance fields of the baseline `PolkadotBackground` beyond
the particle state. -/
structure Component where
  glOk : Bool
  webglSetup : Bool
  animationId : Option ℕ
  st : State
deriving Repr, DecidableEq

/-- `init()` of the baseline variant: identical to the festive one
except that it does not pre-populate (its `dots` start empty). -/
def init (glAvailable : Bool) (dom : DomState) : Component × DomState :=
  let dom1 : DomState := { dom with canvasAttached := true }
  if glAvailable then
    let dom2 : DomState := { dom1 with resizeListeners := dom1.resizeListeners + 1 }
    ({ glOk := true, webglSetup := true, animationId := some 1,
       st := { dots := [], lastSpawnTime := 0 } },
     { dom2 with animationScheduled := true })
  else
    ({ glOk := false, webglSetup := false, animationId := none,
       st := { dots := [], lastSpawnTime := 0 } },
     { dom1 with warnCount := dom1.warnCount + 1 })

/-- `destroy()` of the baseline variant (same code as festive). -/
def destroy (c : Component) (dom : DomState) : Component × DomState :=
  let dom1 := if c.animationId.isSome then { dom with animationScheduled := false } else dom
  let dom2 := if dom1.canvasAttached then { dom1 with canvasAttached := false } else dom1
  (c, dom2)

end Baseline

/-! ### Generic random streams used by concrete evaluations -/

/-- The all-zero random stream. -/
def rngZero : Rng := fun _ => 0

/-- A constant random stream. -/
def rngConst (q : ℚ) : Rng := fun _ => q

/-- The set of x positions `getRandomX` can actually produce: the left
band `[-1, -0.333)` or the right band `[0.333, 1)`. Note `0.667` and
`0.333` are not exactly two thirds and one third: the bands slightly
overlap the mathematical center third `[-1/3, 1/3]`. -/
def InSideBands (x : ℚ) : Prop :=
  (-1 ≤ x ∧ x < -0.333) ∨ (0.333 ≤ x ∧ x < 1)

/-! ## Helper lemmas -/

theorem baseline_spawnDot_length_le (rng : Rng) (k : ℕ) (now : ℚ) (s : Baseline.State)
    (h : s.dots.length ≤ Baseline.CONFIG_maxDots) :
    (Baseline.spawnDot rng k now s).1.dots.length ≤ Baseline.CONFIG_maxDots := by
  unfold Baseline.spawnDot
  split
  · exact h
  · rename_i hfull
    simp only [List.length_append, List.length_singleton]
    omega

theorem festive_spawnDot_length_le (rng : Rng) (k : ℕ) (now : ℚ) (s : Festive.State)
    (h : s.dots.length ≤ Festive.CONFIG_maxDots) :
    (Festive.spawnDot rng k now s).1.dots.length ≤ Festive.CONFIG_maxDots := by
  unfold Festive.spawnDot
  split
  · exact h
  · rename_i hfull
    simp only [List.length_append, List.length_singleton]
    omega

theorem triangle_spawnDot_length_le (rng : Rng) (k : ℕ) (now : ℚ) (s : Triangle.State)
    (h : s.dots.length ≤ Triangle.CONFIG_maxDots) :
    (Triangle.spawnDot rng k now s).1.dots.length ≤ Triangle.CONFIG_maxDots := by
  unfold Triangle.spawnDot
  split
  · exact h
  · rename_i hfull
    simp only [List.length_append, List.length_singleton]
    omega

theorem festive_spawnLoop_length_le (rng : Rng) (now : ℚ) (n : ℕ) :
    ∀ sk : Festive.State × ℕ, sk.1.dots.length ≤ Festive.CONFIG_maxDots →
      (Festive.spawnLoop rng now n sk).1.dots.length ≤ Festive.CONFIG_maxDots := by
  induction n with
  | zero => intro sk h; exact h
  | succ n ih =>
    intro sk h
    obtain ⟨s, k⟩ := sk
    rw [Festive.spawnLoop]
    split
    · exact ih _ (festive_spawnDot_length_le rng (k+1) now s h)
    · exact ih _ h

theorem triangle_spawnLoop_length_le (rng : Rng) (now : ℚ) (n : ℕ) :
    ∀ sk : Triangle.State × ℕ, sk.1.dots.length ≤ Triangle.CONFIG_maxDots →
      (Triangle.spawnLoop rng now n sk).1.dots.length ≤ Triangle.CONFIG_maxDots := by
  induction n with
  | zero => intro sk h; exact h
  | succ n ih =>
    intro sk h
    obtain ⟨s, k⟩ := sk
    rw [Triangle.spawnLoop]
    split
    · exact ih _ (triangle_spawnDot_length_le rng (k+1) now s h)
    · exact ih _ h

/-! ## Claims -/

/-- Claim C1: for every call to `updateDots(now)`, in every variant,
the resulting particle collection size is at most the configured
`CONFIG.maxDots`, whatever the random stream does and however many
spawn attempts the call performs, provided the collection respected
the cap before the call (as it does in every reachable state). -/
theorem C1_update_respects_maxDots (rng : Rng) (k : ℕ) (now : ℚ)
    (s₀ : Baseline.State) (s₁ : Festive.State) (s₂ : Triangle.State)
    (h₀ : s₀.dots.length ≤ Baseline.CONFIG_maxDots)
    (h₁ : s₁.dots.length ≤ Festive.CONFIG_maxDots)
    (h₂ : s₂.dots.length ≤ Triangle.CONFIG_maxDots) :
    (Baseline.updateDots rng k now s₀).1.dots.length ≤ Baseline.CONFIG_maxDots ∧
    (Festive.updateDots rng k now s₁).1.dots.length ≤ Festive.CONFIG_maxDots ∧
    (Triangle.updateDots rng k now s₂).1.dots.length ≤ Triangle.CONFIG_maxDots := by
  refine ⟨?_, ?_, ?_⟩
  · have hfil : (s₀.dots.filter
        (fun dot => decide (now - dot.birthTime < dot.lifetime))).length
          ≤ Baseline.CONFIG_maxDots :=
      le_trans (List.length_filter_le _ _) h₀
    unfold Baseline.updateDots
    split
    · split
      · exact baseline_spawnDot_length_le rng (k+1) now _ hfil
      · exact hfil
    · exact hfil
  · have hfil : (s₁.dots.filter
        (fun dot => decide (now - dot.birthTime < dot.lifetime))).length
          ≤ Festive.CONFIG_maxDots :=
      le_trans (List.length_filter_le _ _) h₁
    unfold Festive.updateDots
    split
    · exact festive_spawnLoop_length_le rng now _ _ hfil
    · exact hfil
  · have hfil : (s₂.dots.filterMap (fun dot =>
        if now - dot.birthTime < dot.lifetime then
          some { dot with rotation := dot.rotation + dot.rotationSpeed * 16 }
        else none)).length ≤ Triangle.CONFIG_maxDots :=
      le_trans (List.length_filterMap_le _ _) h₂
    unfold Triangle.updateDots
    split
    · exact triangle_spawnLoop_length_le rng now _ _ hfil
    · exact hfil

/-- Claim C1 witness: a concrete `updateDots` call on each variant from
the empty state (one frame at `now = 1000` with the all-zero random
stream) keeps every collection within its cap. -/
theorem C1_update_respects_maxDots_witness :
    (Baseline.updateDots rngZero 0 1000 ⟨[], 0⟩).1.dots.length ≤ Baseline.CONFIG_maxDots ∧
    (Festive.updateDots rngZero 0 1000 ⟨[], 0⟩).1.dots.length ≤ Festive.CONFIG_maxDots ∧
    (Triangle.updateDots rngZero 0 1000 ⟨[], 0⟩).1.dots.length ≤ Triangle.CONFIG_maxDots :=
  C1_update_respects_maxDots rngZero 0 1000 ⟨[], 0⟩ ⟨[], 0⟩ ⟨[], 0⟩
    (by simp) (by simp) (by simp)

/-- Claim C6: in every variant, calling `spawnDot()` on a collection
already holding at least `CONFIG.maxDots` particles leaves the state
completely unchanged (and consumes no randomness). -/
theorem C6_spawn_noop_when_full (rng : Rng) (k : ℕ) (now : ℚ)
    (s₀ : Baseline.State) (s₁ : Festive.State) (s₂ : Triangle.State)
    (h₀ : Baseline.CONFIG_maxDots ≤ s₀.dots.length)
    (h₁ : Festive.CONFIG_maxDots ≤ s₁.dots.length)
    (h₂ : Triangle.CONFIG_maxDots ≤ s₂.dots.length) :
    Baseline.spawnDot rng k now s₀ = (s₀, k) ∧
    Festive.spawnDot rng k now s₁ = (s₁, k) ∧
    Triangle.spawnDot rng k now s₂ = (s₂, k) := by
  refine ⟨?_, ?_, ?_⟩
  · unfold Baseline.spawnDot; rw [if_pos h₀]
  · unfold Festive.spawnDot; rw [if_pos h₁]
  · unfold Triangle.spawnDot; rw [if_pos h₂]

/-- Claim C6 witness: `spawnDot` on concrete full collections (2000,
9, and 10 copies of a dummy particle) returns the state unchanged. -/
theorem C6_spawn_noop_when_full_witness :
    Baseline.spawnDot rngZero 0 1000
        ⟨List.replicate 2000 ⟨0, 0, 0, (0, 0, 0, 0), 0, 0⟩, 0⟩
      = (⟨List.replicate 2000 ⟨0, 0, 0, (0, 0, 0, 0), 0, 0⟩, 0⟩, 0) ∧
    Festive.spawnDot rngZero 0 1000
        ⟨List.replicate 9 ⟨0, 0, 0, (0, 0, 0, 0), 0, 0⟩, 0⟩
      = (⟨List.replicate 9 ⟨0, 0, 0, (0, 0, 0, 0), 0, 0⟩, 0⟩, 0) ∧
    Triangle.spawnDot rngZero 0 1000
        ⟨List.replicate 10 ⟨0, 0, 0, (0, 0, 0, 0), 0, 0, 0, 0⟩, 0⟩
      = (⟨List.replicate 10 ⟨0, 0, 0, (0, 0, 0, 0), 0, 0, 0, 0⟩, 0⟩, 0) :=
  C6_spawn_noop_when_full rngZero 0 1000 _ _ _
    (by rw [List.length_replicate]; exact le_rfl)
    (by rw [List.length_replicate]; exact le_rfl)
    (by rw [List.length_replicate]; exact le_rfl)

theorem baseline_spawnDot_alive (rng : Rng) (k : ℕ) (now : ℚ) (s : Baseline.State)
    (hr : 0 ≤ rng (k+1))
    (h : ∀ d ∈ s.dots, now - d.birthTime < d.lifetime) :
    ∀ d ∈ (Baseline.spawnDot rng k now s).1.dots, now - d.birthTime < d.lifetime := by
  unfold Baseline.spawnDot
  split
  · exact h
  · intro d hd
    simp only [List.mem_append, List.mem_singleton] at hd
    rcases hd with hd | rfl
    · exact h d hd
    · simp only [Baseline.CONFIG_minLifetime, Baseline.CONFIG_maxLifetime]
      nlinarith

theorem festive_spawnDot_alive (rng : Rng) (k : ℕ) (now : ℚ) (s : Festive.State)
    (hr : 0 ≤ rng (k+1))
    (h : ∀ d ∈ s.dots, now - d.birthTime < d.lifetime) :
    ∀ d ∈ (Festive.spawnDot rng k now s).1.dots, now - d.birthTime < d.lifetime := by
  unfold Festive.spawnDot
  split
  · exact h
  · intro d hd
    simp only [List.mem_append, List.mem_singleton] at hd
    rcases hd with hd | rfl
    · exact h d hd
    · simp only [Festive.CONFIG_minLifetime, Festive.CONFIG_maxLifetime]
      nlinarith

theorem triangle_spawnDot_alive (rng : Rng) (k : ℕ) (now : ℚ) (s : Triangle.State)
    (hr : 0 ≤ rng (k+1))
    (h : ∀ d ∈ s.dots, now - d.birthTime < d.lifetime) :
    ∀ d ∈ (Triangle.spawnDot rng k now s).1.dots, now - d.birthTime < d.lifetime := by
  unfold Triangle.spawnDot
  split
  · exact h
  · intro d hd
    simp only [List.mem_append, List.mem_singleton] at hd
    rcases hd with hd | rfl
    · exact h d hd
    · simp only [Triangle.CONFIG_minLifetime, Triangle.CONFIG_maxLifetime]
      nlinarith

theorem festive_spawnLoop_alive (rng : Rng) (now : ℚ) (hr : ValidRng rng) (n : ℕ) :
    ∀ sk : Festive.State × ℕ, (∀ d ∈ sk.1.dots, now - d.birthTime < d.lifetime) →
      ∀ d ∈ (Festive.spawnLoop rng now n sk).1.dots, now - d.birthTime < d.lifetime := by
  induction n with
  | zero => intro sk h; exact h
  | succ n ih =>
    intro sk h
    obtain ⟨s, k⟩ := sk
    rw [Festive.spawnLoop]
    split
    · exact ih _ (festive_spawnDot_alive rng (k+1) now s (hr (k+2)).1 h)
    · exact ih _ h

theorem triangle_spawnLoop_alive (rng : Rng) (now : ℚ) (hr : ValidRng rng) (n : ℕ) :
    ∀ sk : Triangle.State × ℕ, (∀ d ∈ sk.1.dots, now - d.birthTime < d.lifetime) →
      ∀ d ∈ (Triangle.spawnLoop rng now n sk).1.dots, now - d.birthTime < d.lifetime := by
  induction n with
  | zero => intro sk h; exact h
  | succ n ih =>
    intro sk h
    obtain ⟨s, k⟩ := sk
    rw [Triangle.spawnLoop]
    split
    · exact ih _ (triangle_spawnDot_alive rng (k+1) now s (hr (k+2)).1 h)
    · exact ih _ h

theorem baseline_filter_alive (now : ℚ) (l : List Baseline.Dot) :
    ∀ d ∈ l.filter (fun dot => decide (now - dot.birthTime < dot.lifetime)),
      now - d.birthTime < d.lifetime := by
  intro d hd
  have := List.of_mem_filter hd
  simpa using this

theorem festive_filter_alive (now : ℚ) (l : List Festive.Dot) :
    ∀ d ∈ l.filter (fun dot => decide (now - dot.birthTime < dot.lifetime)),
      now - d.birthTime < d.lifetime := by
  intro d hd
  have := List.of_mem_filter hd
  simpa using this

theorem triangle_filterMap_alive (now : ℚ) (l : List Triangle.Dot) :
    ∀ d ∈ l.filterMap (fun dot =>
        if now - dot.birthTime < dot.lifetime then
          some { dot with rotation := dot.rotation + dot.rotationSpeed * 16 }
        else none),
      now - d.birthTime < d.lifetime := by
  intro d hd
  simp only [List.mem_filterMap] at hd
  obtain ⟨a, ha, hfa⟩ := hd
  by_cases hcond : now - a.birthTime < a.lifetime
  · rw [if_pos hcond] at hfa
    cases hfa
    simpa using hcond
  · rw [if_neg hcond] at hfa
    cases hfa

/-- Claim C2: in every variant, after `updateDots(now)` every particle
in the collection has age strictly less than its lifetime — expired
particles are removed and freshly spawned ones are born at `now` with
a positive lifetime (the random stream being valid). -/
theorem C2_update_removes_expired (rng : Rng) (k : ℕ) (now : ℚ)
    (s₀ : Baseline.State) (s₁ : Festive.State) (s₂ : Triangle.State)
    (hr : ValidRng rng) :
    (∀ d ∈ (Baseline.updateDots rng k now s₀).1.dots, now - d.birthTime < d.lifetime) ∧
    (∀ d ∈ (Festive.updateDots rng k now s₁).1.dots, now - d.birthTime < d.lifetime) ∧
    (∀ d ∈ (Triangle.updateDots rng k now s₂).1.dots, now - d.birthTime < d.lifetime) := by
  refine ⟨?_, ?_, ?_⟩
  · have hfil := baseline_filter_alive now s₀.dots
    unfold Baseline.updateDots
    split
    · split
      · exact baseline_spawnDot_alive rng (k+1) now _ (hr (k+2)).1 hfil
      · exact hfil
    · exact hfil
  · have hfil := festive_filter_alive now s₁.dots
    unfold Festive.updateDots
    split
    · exact festive_spawnLoop_alive rng now hr _ _ hfil
    · exact hfil
  · have hfil := triangle_filterMap_alive now s₂.dots
    unfold Triangle.updateDots
    split
    · exact triangle_spawnLoop_alive rng now hr _ _ hfil
    · exact hfil

/-- Claim C2 witness: with the all-zero random stream, a frame at
`now = 5000` on a state holding one long-expired dot (born at 0 with
lifetime 1000) leaves only live particles in every variant. -/
theorem C2_update_removes_expired_witness :
    ValidRng rngZero ∧
    (∀ d ∈ (Baseline.updateDots rngZero 0 5000
        ⟨[⟨0, 0, 20, (0, 0, 0, 0), 0, 1000⟩], 0⟩).1.dots,
      5000 - d.birthTime < d.lifetime) ∧
    (∀ d ∈ (Festive.updateDots rngZero 0 5000
        ⟨[⟨0, 0, 50, (0, 0, 0, 0), 0, 1000⟩], 0⟩).1.dots,
      5000 - d.birthTime < d.lifetime) ∧
    (∀ d ∈ (Triangle.updateDots rngZero 0 5000
        ⟨[⟨0, 0, 70, (0, 0, 0, 0), 0, 1000, 0, 0⟩], 0⟩).1.dots,
      5000 - d.birthTime < d.lifetime) := by
  have hv : ValidRng rngZero := by intro n; constructor <;> norm_num [rngZero]
  exact ⟨hv, C2_update_removes_expired rngZero 0 5000 _ _ _ hv⟩

theorem festive_spawnLoop_gate_fail (rng : Rng) (now : ℚ)
    (hgate : ∀ n, (0.85 : ℚ) ≤ rng n) (n : ℕ) :
    ∀ sk : Festive.State × ℕ, Festive.spawnLoop rng now n sk = (sk.1, sk.2 + n) := by
  induction n with
  | zero => intro sk; rw [Festive.spawnLoop]; simp
  | succ n ih =>
    intro sk
    obtain ⟨s, k⟩ := sk
    rw [Festive.spawnLoop, if_neg (not_lt.mpr (hgate k)), ih]
    simp only []
    rw [Nat.add_assoc, Nat.add_comm 1 n]

theorem triangle_spawnLoop_gate_fail (rng : Rng) (now : ℚ)
    (hgate : ∀ n, (0.85 : ℚ) ≤ rng n) (n : ℕ) :
    ∀ sk : Triangle.State × ℕ, Triangle.spawnLoop rng now n sk = (sk.1, sk.2 + n) := by
  induction n with
  | zero => intro sk; rw [Triangle.spawnLoop]; simp
  | succ n ih =>
    intro sk
    obtain ⟨s, k⟩ := sk
    rw [Triangle.spawnLoop, if_neg (not_lt.mpr (hgate k)), ih]
    simp only []
    rw [Nat.add_assoc, Nat.add_comm 1 n]

theorem triangle_filterMap_length_eq (now : ℚ) (l : List Triangle.Dot) :
    (l.filterMap (fun dot =>
        if now - dot.birthTime < dot.lifetime then
          some { dot with rotation := dot.rotation + dot.rotationSpeed * 16 }
        else none)).length
      = (l.filter (fun dot => decide (now - dot.birthTime < dot.lifetime))).length := by
  induction l with
  | nil => rfl
  | cons a l ih =>
    by_cases hcond : now - a.birthTime < a.lifetime
    · simp [List.filterMap_cons, List.filter_cons, hcond, ih]
    · simp [List.filterMap_cons, List.filter_cons, hcond, ih]

/-- Claim C5: in every variant, whenever the spawn interval has
elapsed, `updateDots` sets `lastSpawnTime` to `now` no matter what the
probability gate decides; and when the randomness is stubbed so that
every gate roll fails (every sample at least 0.85, hence also at least
the baseline threshold 0.7), no particle is spawned: the resulting
collection is exactly the expiry-filtered one (in the triangle variant,
of the same length as the filtered one — rotations still advance). -/
theorem C5_interval_resets_clock_even_if_gate_declines
    (rng : Rng) (k : ℕ) (now : ℚ)
    (s₀ : Baseline.State) (s₁ : Festive.State) (s₂ : Triangle.State)
    (h₀ : Baseline.CONFIG_spawnInterval < now - s₀.lastSpawnTime)
    (h₁ : Festive.CONFIG_spawnInterval < now - s₁.lastSpawnTime)
    (h₂ : Triangle.CONFIG_spawnInterval < now - s₂.lastSpawnTime) :
    ((Baseline.updateDots rng k now s₀).1.lastSpawnTime = now ∧
     (Festive.updateDots rng k now s₁).1.lastSpawnTime = now ∧
     (Triangle.updateDots rng k now s₂).1.lastSpawnTime = now) ∧
    ((∀ n, (0.85 : ℚ) ≤ rng n) →
      (Baseline.updateDots rng k now s₀).1.dots
          = s₀.dots.filter (fun dot => decide (now - dot.birthTime < dot.lifetime)) ∧
      (Festive.updateDots rng k now s₁).1.dots
          = s₁.dots.filter (fun dot => decide (now - dot.birthTime < dot.lifetime)) ∧
      (Triangle.updateDots rng k now s₂).1.dots.length
          = (s₂.dots.filter (fun dot => decide (now - dot.birthTime < dot.lifetime))).length) := by
  constructor
  · refine ⟨?_, ?_, ?_⟩
    · unfold Baseline.updateDots
      rw [if_pos h₀]
    · unfold Festive.updateDots
      rw [if_pos h₁]
    · unfold Triangle.updateDots
      rw [if_pos h₂]
  · intro hgate
    have hbase : ¬ rng k < (0.7 : ℚ) := by
      have h85 := hgate k
      intro hlt
      norm_num at h85 hlt
      linarith
    refine ⟨?_, ?_, ?_⟩
    · unfold Baseline.updateDots
      rw [if_pos h₀, if_neg hbase]
    · unfold Festive.updateDots
      rw [if_pos h₁]
      simp [festive_spawnLoop_gate_fail rng now hgate]
    · unfold Triangle.updateDots
      rw [if_pos h₂]
      simp only [triangle_spawnLoop_gate_fail rng now hgate]
      exact triangle_filterMap_length_eq now s₂.dots

/-- Claim C5 witness: with every random sample stubbed to 0.9 (gate
always failing) and empty initial collections at `now = 2000`, all
three variants leave the collection empty while `lastSpawnTime`
advances to 2000. -/
theorem C5_interval_resets_clock_witness :
    ((Baseline.updateDots (rngConst 0.9) 0 2000 ⟨[], 0⟩).1.lastSpawnTime = 2000 ∧
     (Festive.updateDots (rngConst 0.9) 0 2000 ⟨[], 0⟩).1.lastSpawnTime = 2000 ∧
     (Triangle.updateDots (rngConst 0.9) 0 2000 ⟨[], 0⟩).1.lastSpawnTime = 2000) ∧
    ((Baseline.updateDots (rngConst 0.9) 0 2000 ⟨[], 0⟩).1.dots = [] ∧
     (Festive.updateDots (rngConst 0.9) 0 2000 ⟨[], 0⟩).1.dots = [] ∧
     (Triangle.updateDots (rngConst 0.9) 0 2000 ⟨[], 0⟩).1.dots.length = 0) := by
  have h := C5_interval_resets_clock_even_if_gate_declines (rngConst 0.9) 0 2000
    ⟨[], 0⟩ ⟨[], 0⟩ ⟨[], 0⟩
    (by norm_num [Baseline.CONFIG_spawnInterval])
    (by norm_num [Festive.CONFIG_spawnInterval])
    (by norm_num [Triangle.CONFIG_spawnInterval])
  have hgate : ∀ n, (0.85 : ℚ) ≤ rngConst 0.9 n := by
    intro n; norm_num [rngConst]
  obtain ⟨hclock, hdots⟩ := h
  obtain ⟨hb, hf, ht⟩ := hdots hgate
  exact ⟨hclock, by simpa using hb, by simpa using hf, by simpa using ht⟩

theorem festive_prePopLoop_length (rng : Rng) (now : ℚ) (n : ℕ) :
    ∀ dk : List Festive.Dot × ℕ,
      (Festive.prePopLoop rng now n dk).1.length = dk.1.length + n := by
  induction n with
  | zero => intro dk; rw [Festive.prePopLoop]; simp
  | succ n ih =>
    intro dk
    obtain ⟨dots, k⟩ := dk
    rw [Festive.prePopLoop, ih]
    simp only [List.length_append, List.length_singleton]
    omega

theorem festive_prePopLoop_backdated (rng : Rng) (now : ℚ) (hr : ValidRng rng) (n : ℕ) :
    ∀ dk : List Festive.Dot × ℕ,
      (∀ d ∈ dk.1, d.birthTime ≤ now ∧ now - d.birthTime ≤ 0.8 * d.lifetime) →
      ∀ d ∈ (Festive.prePopLoop rng now n dk).1,
        d.birthTime ≤ now ∧ now - d.birthTime ≤ 0.8 * d.lifetime := by
  induction n with
  | zero => intro dk h; rw [Festive.prePopLoop]; exact h
  | succ n ih =>
    intro dk h
    obtain ⟨dots, k⟩ := dk
    rw [Festive.prePopLoop]
    refine ih _ ?_
    intro d hd
    simp only [List.mem_append, List.mem_singleton] at hd
    rcases hd with hd | rfl
    · exact h d hd
    · have h1 := hr (k+1)
      have h2 := hr (k+2)
      simp only [Festive.CONFIG_minLifetime, Festive.CONFIG_maxLifetime]
      norm_num
      constructor
      · nlinarith [h1.1, h2.1]
      · nlinarith [h1.1, h2.1, h2.2]

/-- Claim C7: `prePopulateDots()` of the festive variant (capacity 9,
target fraction 0.7), run from the initial empty state, creates
exactly `Math.floor(9 * 0.7) = 6` particles, and — for every valid
random stream — each is back-dated by at most 80% of its lifetime:
`birthTime ≤ now` and `now - birthTime ≤ 0.8 * lifetime`. -/
theorem C7_prepopulate_festive (rng : Rng) (k : ℕ) (now : ℚ) (hr : ValidRng rng) :
    (Festive.prePopulateDots rng k now ⟨[], 0⟩).1.dots.length = 6 ∧
    ∀ d ∈ (Festive.prePopulateDots rng k now ⟨[], 0⟩).1.dots,
      d.birthTime ≤ now ∧ now - d.birthTime ≤ 0.8 * d.lifetime := by
  have htarget : ((⌊(Festive.CONFIG_maxDots : ℚ) * 0.7⌋).toNat) = 6 := by
    norm_num [Festive.CONFIG_maxDots]
    decide
  constructor
  · unfold Festive.prePopulateDots
    rw [htarget, festive_prePopLoop_length]
    simp
  · unfold Festive.prePopulateDots
    intro d hd
    exact festive_prePopLoop_backdated rng now hr _ _ (by simp) d hd

/-- Claim C7 witness: with the all-zero random stream at `now = 5000`,
pre-population creates exactly six dots, all back-dated by at most 80%
of their lifetime. -/
theorem C7_prepopulate_festive_witness :
    ValidRng rngZero ∧
    (Festive.prePopulateDots rngZero 0 5000 ⟨[], 0⟩).1.dots.length = 6 ∧
    ∀ d ∈ (Festive.prePopulateDots rngZero 0 5000 ⟨[], 0⟩).1.dots,
      d.birthTime ≤ 5000 ∧ 5000 - d.birthTime ≤ 0.8 * d.lifetime := by
  have hv : ValidRng rngZero := by intro n; constructor <;> norm_num [rngZero]
  exact ⟨hv, C7_prepopulate_festive rngZero 0 5000 hv⟩

theorem triangle_getRandomX_side_bands (rng : Rng) (hr : ValidRng rng) (k : ℕ) :
    InSideBands (Triangle.getRandomX rng k).1 := by
  have h1 := hr (k+1)
  unfold Triangle.getRandomX InSideBands
  split
  · left
    norm_num
    constructor
    · linarith [h1.1]
    · linarith [h1.2]
  · right
    norm_num
    constructor
    · linarith [h1.1]
    · linarith [h1.2]

theorem triangle_spawnDot_position (rng : Rng) (hr : ValidRng rng) (k : ℕ) (now : ℚ)
    (s : Triangle.State) :
    ∀ d ∈ (Triangle.spawnDot rng k now s).1.dots,
      d ∈ s.dots ∨ (InSideBands d.x ∧ -1 ≤ d.y ∧ d.y ≤ 1) := by
  intro d hd
  unfold Triangle.spawnDot at hd
  split at hd
  · left; exact hd
  · simp only [List.mem_append, List.mem_singleton] at hd
    rcases hd with hd | rfl
    · left; exact hd
    · right
      refine ⟨triangle_getRandomX_side_bands rng hr (k+2), ?_, ?_⟩
      · have := (hr (k+4)).1
        simp only []
        linarith
      · have := (hr (k+4)).2
        simp only []
        linarith

theorem triangle_prePopLoop_position (rng : Rng) (hr : ValidRng rng) (now : ℚ) (n : ℕ) :
    ∀ dk : List Triangle.Dot × ℕ, ∀ d ∈ (Triangle.prePopLoop rng now n dk).1,
      d ∈ dk.1 ∨ (InSideBands d.x ∧ -1 ≤ d.y ∧ d.y ≤ 1) := by
  induction n with
  | zero => intro dk d hd; rw [Triangle.prePopLoop] at hd; left; exact hd
  | succ n ih =>
    intro dk d hd
    obtain ⟨dots, k⟩ := dk
    rw [Triangle.prePopLoop] at hd
    rcases ih _ d hd with hmem | hp
    · simp only [List.mem_append, List.mem_singleton] at hmem
      rcases hmem with hmem | rfl
      · left; exact hmem
      · right
        refine ⟨triangle_getRandomX_side_bands rng hr (k+3), ?_, ?_⟩
        · have := (hr (k+5)).1
          simp only []
          linarith
        · have := (hr (k+5)).2
          simp only []
          linarith
    · right; exact hp

/-- Claim C4 counterexample: the random source that rolls 1/2 for the
coin (taking the right band) and then 0 for the position sample is a
legal `Math.random()` stream, yet `getRandomX` returns exactly
`0.333`, which does lie inside the center third `[-1/3, 1/3]`
(because `0.333 < 1/3`); so the claim "no sample falls in
`[-1/3, 1/3]`" is false as stated. -/
theorem C4_center_third_counterexample :
    ValidRng (fun n => if n = 0 then 1/2 else 0) ∧
    -(1/3 : ℚ) ≤ (Triangle.getRandomX (fun n => if n = 0 then 1/2 else 0) 0).1 ∧
    (Triangle.getRandomX (fun n => if n = 0 then 1/2 else 0) 0).1 ≤ 1/3 := by
  refine ⟨?_, ?_, ?_⟩
  · intro n
    by_cases h : n = 0 <;> simp only [h] <;> norm_num
  · norm_num [Triangle.getRandomX]
  · norm_num [Triangle.getRandomX]

/-- Claim C4 (corrected): for every valid random source, every x
position produced by the triangle variant's `getRandomX` — and hence
the x of every particle added by `spawnDot` or by the pre-populate
loop — lies in `[-1, -0.333) ∪ [0.333, 1)`, the two side bands
delimited by the literal constant `0.333` (slightly narrower than the
exact center third); the y coordinate lies in `[-1, 1]`. -/
theorem C4_positions_in_side_bands (rng : Rng) (hr : ValidRng rng) :
    (∀ k, InSideBands (Triangle.getRandomX rng k).1) ∧
    (∀ (k : ℕ) (now : ℚ) (s : Triangle.State),
      ∀ d ∈ (Triangle.spawnDot rng k now s).1.dots,
        d ∈ s.dots ∨ (InSideBands d.x ∧ -1 ≤ d.y ∧ d.y ≤ 1)) ∧
    (∀ (k : ℕ) (now : ℚ) (s : Triangle.State),
      ∀ d ∈ (Triangle.prePopulateDots rng k now s).1.dots,
        d ∈ s.dots ∨ (InSideBands d.x ∧ -1 ≤ d.y ∧ d.y ≤ 1)) := by
  refine ⟨triangle_getRandomX_side_bands rng hr, triangle_spawnDot_position rng hr, ?_⟩
  intro k now s d hd
  unfold Triangle.prePopulateDots at hd
  exact triangle_prePopLoop_position rng hr now _ _ d hd

/-- Claim C4 witness: the all-zero random stream is valid and its
first `getRandomX` sample, `-1`, lies in the left side band. -/
theorem C4_positions_in_side_bands_witness :
    ValidRng rngZero ∧ InSideBands (Triangle.getRandomX rngZero 0).1 := by
  have hv : ValidRng rngZero := by intro n; constructor <;> norm_num [rngZero]
  exact ⟨hv, (C4_positions_in_side_bands rngZero hv).1 0⟩

/-- Claim C8 counterexample: construct with a working GL context from
a fresh browser state, then destroy. The canvas and the frame callback
are released, yet the viewport-resize listener registered by `init`
is still registered (count 1, not 0): `destroy` does not fully
reverse the resource changes of construction. -/
theorem C8_destroy_leaves_listener_counterexample :
    (Festive.destroy
        (Festive.init true rngZero 0 5000 DomState.fresh).1
        (Festive.init true rngZero 0 5000 DomState.fresh).2.1).2.resizeListeners = 1 ∧
    ¬ (Festive.destroy
        (Festive.init true rngZero 0 5000 DomState.fresh).1
        (Festive.init true rngZero 0 5000 DomState.fresh).2.1).2.resizeListeners = 0 := by
  norm_num [Festive.init, Festive.destroy, DomState.fresh]

/-- Claim C8 (corrected): after a successful `init`, `destroy` detaches
the canvas and cancels the scheduled frame callback, and calling
`destroy` again changes nothing (idempotence); but the resize listener
added at `init` remains registered — `destroy` leaves the listener
count exactly as `init` left it. -/
theorem C8_destroy_cancels_frame_and_canvas (rng : Rng) (k : ℕ) (now : ℚ) (dom : DomState) :
    ((Festive.destroy (Festive.init true rng k now dom).1
        (Festive.init true rng k now dom).2.1).2.canvasAttached = false ∧
     (Festive.destroy (Festive.init true rng k now dom).1
        (Festive.init true rng k now dom).2.1).2.animationScheduled = false ∧
     (Festive.destroy (Festive.init true rng k now dom).1
        (Festive.init true rng k now dom).2.1).2.resizeListeners
          = dom.resizeListeners + 1) ∧
    (∀ (c : Festive.Component) (dm : DomState),
      Festive.destroy c (Festive.destroy c dm).2 = Festive.destroy c dm) := by
  constructor
  · refine ⟨?_, ?_, ?_⟩ <;> simp [Festive.init, Festive.destroy]
  · intro c dm
    obtain ⟨ca, rl, asch, wc⟩ := dm
    unfold Festive.destroy
    by_cases h : c.animationId.isSome
    · cases ca <;> simp [h]
    · cases ca <;> simp [h]

/-- Claim C9: when the WebGL context is unavailable, `init` (baseline
and festive variants) inserts the canvas, emits exactly one
`console.warn` diagnostic, and performs nothing else: no WebGL setup,
no resize-listener registration, no pre-population (the particle list
stays empty and, in the festive variant, no randomness is consumed),
and no animation frame is ever scheduled; as a total function it
cannot throw. -/
theorem C9_init_without_gl_is_inert (rng : Rng) (k : ℕ) (now : ℚ) (dom : DomState) :
    ((Baseline.init false dom).2.canvasAttached = true ∧
     (Baseline.init false dom).2.resizeListeners = dom.resizeListeners ∧
     (Baseline.init false dom).2.animationScheduled = dom.animationScheduled ∧
     (Baseline.init false dom).2.warnCount = dom.warnCount + 1 ∧
     (Baseline.init false dom).1.webglSetup = false ∧
     (Baseline.init false dom).1.animationId = none ∧
     (Baseline.init false dom).1.st.dots = []) ∧
    ((Festive.init false rng k now dom).2.1.canvasAttached = true ∧
     (Festive.init false rng k now dom).2.1.resizeListeners = dom.resizeListeners ∧
     (Festive.init false rng k now dom).2.1.animationScheduled
        = dom.animationScheduled ∧
     (Festive.init false rng k now dom).2.1.warnCount = dom.warnCount + 1 ∧
     (Festive.init false rng k now dom).1.webglSetup = false ∧
     (Festive.init false rng k now dom).1.animationId = none ∧
     (Festive.init false rng k now dom).1.st.dots = [] ∧
     (Festive.init false rng k now dom).2.2 = k) := by
  constructor <;> simp [Baseline.init, Festive.init]

theorem twinkle_alpha_bounds (x L : ℝ) (hL : 0 < L) (h0 : 0 ≤ x) (h1 : x ≤ L) :
    0 ≤ Real.sin (x / L * Real.pi) * (1 + Real.sin (x * 0.01) * 0.1) ∧
    Real.sin (x / L * Real.pi) * (1 + Real.sin (x * 0.01) * 0.1) ≤ 1.1 := by
  have hp0 : 0 ≤ x / L := div_nonneg h0 hL.le
  have hp1 : x / L ≤ 1 := (div_le_one hL).mpr h1
  have ha0 : 0 ≤ x / L * Real.pi := mul_nonneg hp0 Real.pi_pos.le
  have ha1 : x / L * Real.pi ≤ Real.pi := by
    nlinarith [mul_nonneg (sub_nonneg.mpr hp1) Real.pi_pos.le]
  have hs0 : 0 ≤ Real.sin (x / L * Real.pi) :=
    Real.sin_nonneg_of_nonneg_of_le_pi ha0 ha1
  have hs1 : Real.sin (x / L * Real.pi) ≤ 1 := Real.sin_le_one _
  have ht0 := Real.neg_one_le_sin (x * 0.01)
  have ht1 := Real.sin_le_one (x * 0.01)
  have htw0 : (0 : ℝ) ≤ 1 + Real.sin (x * 0.01) * 0.1 := by nlinarith
  have htw1 : 1 + Real.sin (x * 0.01) * 0.1 ≤ 1.1 := by nlinarith
  constructor
  · exact mul_nonneg hs0 htw0
  · nlinarith [mul_nonneg (sub_nonneg.mpr hs1) htw0]

theorem sin_fifteen_pos : (0 : ℝ) < Real.sin 15 := by
  have heq : Real.sin ((15 : ℝ) - 2 * Real.pi - 2 * Real.pi) = Real.sin 15 := by
    rw [Real.sin_sub_two_pi, Real.sin_sub_two_pi]
  rw [← heq]
  apply Real.sin_pos_of_pos_of_lt_pi
  · nlinarith [Real.pi_lt_d2]
  · nlinarith [Real.pi_gt_d6]

/-- Claim C3: for every particle, `calculateAlpha` computes the fade
envelope `sin(π * age/lifetime)` — equal to 0 at age 0, exactly 1 at
age = lifetime/2 and 0 at age = lifetime — and the festive and
triangle variants return that envelope multiplied by the twinkle
factor `1 + 0.1 * sin(0.01 * age)`. -/
theorem C3_alpha_envelope (d : Baseline.Dot) (f : Festive.Dot) (t : Triangle.Dot)
    (now : ℚ) (hL : 0 < d.lifetime) :
    Baseline.calculateAlpha d now
        = Real.sin (Real.pi * (((now : ℝ) - (d.birthTime : ℝ)) / (d.lifetime : ℝ))) ∧
    Baseline.calculateAlpha d d.birthTime = 0 ∧
    Baseline.calculateAlpha d (d.birthTime + d.lifetime / 2) = 1 ∧
    Baseline.calculateAlpha d (d.birthTime + d.lifetime) = 0 ∧
    Festive.calculateAlpha f now
        = Real.sin (Real.pi * (((now : ℝ) - (f.birthTime : ℝ)) / (f.lifetime : ℝ)))
          * (1 + 0.1 * Real.sin (0.01 * ((now : ℝ) - (f.birthTime : ℝ)))) ∧
    Triangle.calculateAlpha t now
        = Real.sin (Real.pi * (((now : ℝ) - (t.birthTime : ℝ)) / (t.lifetime : ℝ)))
          * (1 + 0.1 * Real.sin (0.01 * ((now : ℝ) - (t.birthTime : ℝ)))) := by
  have hL0 : (d.lifetime : ℝ) ≠ 0 := by exact_mod_cast hL.ne'
  refine ⟨?_, ?_, ?_, ?_, ?_, ?_⟩
  · simp only [Baseline.calculateAlpha]
    congr 1
    ring
  · simp [Baseline.calculateAlpha]
  · simp only [Baseline.calculateAlpha]
    push_cast
    rw [show ((d.birthTime : ℝ) + (d.lifetime : ℝ) / 2 - (d.birthTime : ℝ))
          / (d.lifetime : ℝ) * Real.pi = Real.pi / 2 by field_simp; ring]
    exact Real.sin_pi_div_two
  · simp only [Baseline.calculateAlpha]
    push_cast
    rw [show ((d.birthTime : ℝ) + (d.lifetime : ℝ) - (d.birthTime : ℝ))
          / (d.lifetime : ℝ) * Real.pi = Real.pi by field_simp]
    exact Real.sin_pi
  · simp only [Festive.calculateAlpha]
    ring_nf
  · simp only [Triangle.calculateAlpha]
    ring_nf

/-- Claim C3 witness: a baseline dot born at 0 with lifetime 3000 has
alpha exactly 1 at its half-life `0 + 3000/2`. -/
theorem C3_alpha_envelope_witness :
    (0 : ℚ) < 3000 ∧
    Baseline.calculateAlpha ⟨0, 0, 20, (0, 0, 0, 0), 0, 3000⟩ (0 + 3000 / 2) = 1 :=
  ⟨by norm_num,
   (C3_alpha_envelope ⟨0, 0, 20, (0, 0, 0, 0), 0, 3000⟩
      ⟨0, 0, 50, (0, 0, 0, 0), 0, 3000⟩
      ⟨0, 0, 70, (0, 0, 0, 0), 0, 3000, 0, 0⟩ 0 (by norm_num)).2.2.1⟩

/-- Claim C10: in the festive and triangle variants, for particles with
age between 0 and lifetime, `calculateAlpha` always lies in
`[0, 1.1]`; it is never negative for a live particle, and it can
genuinely exceed 1 (a festive dot born at 0 with lifetime 3000 has
alpha `1 + 0.1*sin(15) > 1` at its half-life). -/
theorem C10_alpha_range (f : Festive.Dot) (t : Triangle.Dot) (nf nt : ℚ)
    (hfL : 0 < f.lifetime) (hf0 : 0 ≤ nf - f.birthTime) (hf1 : nf - f.birthTime ≤ f.lifetime)
    (htL : 0 < t.lifetime) (ht0 : 0 ≤ nt - t.birthTime) (ht1 : nt - t.birthTime ≤ t.lifetime) :
    (0 ≤ Festive.calculateAlpha f nf ∧ Festive.calculateAlpha f nf ≤ 1.1) ∧
    (0 ≤ Triangle.calculateAlpha t nt ∧ Triangle.calculateAlpha t nt ≤ 1.1) ∧
    (∃ (g : Festive.Dot) (m : ℚ), 0 < g.lifetime ∧ 0 ≤ m - g.birthTime ∧
        m - g.birthTime ≤ g.lifetime ∧ 1 < Festive.calculateAlpha g m) := by
  refine ⟨?_, ?_, ?_⟩
  · simp only [Festive.calculateAlpha]
    exact twinkle_alpha_bounds ((nf : ℝ) - (f.birthTime : ℝ)) (f.lifetime : ℝ)
      (by exact_mod_cast hfL) (by exact_mod_cast hf0)
      (by exact_mod_cast hf1)
  · simp only [Triangle.calculateAlpha]
    exact twinkle_alpha_bounds ((nt : ℝ) - (t.birthTime : ℝ)) (t.lifetime : ℝ)
      (by exact_mod_cast htL) (by exact_mod_cast ht0)
      (by exact_mod_cast ht1)
  · refine ⟨⟨0, 0, 50, (0, 0, 0, 0), 0, 3000⟩, 1500, by norm_num, by norm_num,
      by norm_num, ?_⟩
    simp only [Festive.calculateAlpha]
    rw [show (((1500 : ℚ) : ℝ) - ((0 : ℚ) : ℝ)) / ((3000 : ℚ) : ℝ) = 1 / 2 by norm_num]
    rw [show (1 : ℝ) / 2 * Real.pi = Real.pi / 2 by ring]
    rw [Real.sin_pi_div_two]
    rw [show (((1500 : ℚ) : ℝ) - ((0 : ℚ) : ℝ)) * 0.01 = 15 by norm_num]
    rw [one_mul]
    nlinarith [sin_fifteen_pos]

/-- Claim C10 witness: a festive dot and a triangle dot born at 0 with
lifetime 3000, evaluated at age 0, have alpha within `[0, 1.1]`. -/
theorem C10_alpha_range_witness :
    (0 : ℚ) < 3000 ∧ (0 : ℚ) ≤ 0 - 0 ∧ (0 : ℚ) - 0 ≤ 3000 ∧
    0 ≤ Festive.calculateAlpha ⟨0, 0, 50, (0, 0, 0, 0), 0, 3000⟩ 0 ∧
    Festive.calculateAlpha ⟨0, 0, 50, (0, 0, 0, 0), 0, 3000⟩ 0 ≤ 1.1 ∧
    0 ≤ Triangle.calculateAlpha ⟨0, 0, 70, (0, 0, 0, 0), 0, 3000, 0, 0⟩ 0 ∧
    Triangle.calculateAlpha ⟨0, 0, 70, (0, 0, 0, 0), 0, 3000, 0, 0⟩ 0 ≤ 1.1 := by
  have h := C10_alpha_range ⟨0, 0, 50, (0, 0, 0, 0), 0, 3000⟩
    ⟨0, 0, 70, (0, 0, 0, 0), 0, 3000, 0, 0⟩ 0 0
    (by norm_num) (by norm_num) (by norm_num) (by norm_num) (by norm_num) (by norm_num)
  exact ⟨by norm_num, by norm_num, by norm_num, h.1.1, h.1.2, h.2.1.1, h.2.1.2⟩
